import Mathlib

/-!
Verification development for the simple_cpp_server repository.

The embedding below is a shallow model of the three source files:

* `src/server2.cpp` — the daemon: `main` (CLI arity check, daemonization,
  PID file, `std::stoi` of the port, server construction) and the `server`
  class whose members `wait_for_signal` and `do_accept` drive the
  single-threaded asio event loop (signal handling, reaping, accept/fork).
* `src/server.cpp` — an earlier variant of the same server plus a
  FlatBuffers encoding test program; where the claims touch both variants
  the two agree, and `server2.cpp` is embedded as the authority.
* `src/client.cpp` — the client, whose active branch frames a serialized
  message with a 4-byte little-endian length prefix.

Event-loop state is explicit: handlers are pure functions from a
`ServerState` to a new state plus an ordered list of observable `Action`s,
and (for the accept handler) optionally the forked child context. The
event loop itself is a `step` function folded over an environment-chosen
event list.
-/

namespace SimpleCppServer

/-- Signals registered by the server constructor (server2.cpp line 87):
SIGTERM, SIGINT, SIGCHLD. -/
inductive Signal
  | sigterm
  | sigint
  | sigchld
deriving DecidableEq, Repr

/-- Observable side effects performed by the handlers, in program order. -/
inductive Action
  | syslogInfo (msg : String)
  | syslogErr (msg : String)
  | reapLoop
  | closeAcceptor
  | rearmSignalWait
  | notifyForkPrepare
  | forkChild
  | notifyForkChild
  | notifyForkParent
  | closeSocket
  | rearmAccept
  | removeSigchld
  | stopEventLoop
deriving DecidableEq, Repr

/-- Actions that register a wait with the event loop, i.e. the blocking
suspension points of the single-threaded design (waiting for a signal or
for an incoming connection). All other actions complete immediately. -/
def isBlockingWait : Action → Bool
  | Action.rearmSignalWait => true
  | Action.rearmAccept => true
  | _ => false

/-- State of one process running the server event loop. `acceptorOpen`
mirrors `acceptor_.is_open()`; `signalArmed` and `acceptArmed` record
whether an `async_wait` on `signals_` / an `async_accept` on `acceptor_`
is outstanding; `sigchldRegistered` records whether SIGCHLD is still in
the `signals_` set; `stopped` mirrors `io_service_.stop()` having been
called; `zombies` counts terminated-but-unreaped children, `liveChildren`
counts running workers, and `accepted` counts connections for which a
worker was spawned. -/
structure ServerState where
  acceptorOpen : Bool
  signalArmed : Bool
  acceptArmed : Bool
  sigchldRegistered : Bool
  stopped : Bool
  zombies : Nat
  liveChildren : Nat
  accepted : Nat
deriving DecidableEq, Repr

/-- State after the server constructor (server2.cpp lines 85-93): acceptor
bound and open, `wait_for_signal()` and `do_accept()` both armed, SIGCHLD
registered, no children yet. -/
def server_init : ServerState :=
  { acceptorOpen := true
    signalArmed := true
    acceptArmed := true
    sigchldRegistered := true
    stopped := false
    zombies := 0
    liveChildren := 0
    accepted := 0 }

def msgCaughtParent : String := "Caught signal (parent)"

def msgCaughtChild : String := "Caught signal (child)"

def msgClosedAcceptor : String := "Closed acceptor socket"

def msgRescheduled : String := "Rescheduled signal handlers"

def msgForkedChild : String := "Forked child"

def msgAcceptError : String := "Accept error"

/-- The reap loop `for (int status = 0; waitpid(-1, &status, WNOHANG) > 0;) {}`
(server2.cpp line 114, server.cpp line 40): each non-blocking `waitpid`
call collects one terminated child and returns a positive pid while one
exists, so the loop runs until no terminated child remains. Returns the
number of zombies left after the loop. -/
def drain_zombies : Nat → Nat
  | 0 => 0
  | n + 1 => drain_zombies n

/-- The completion handler installed by `wait_for_signal` (server2.cpp
lines 96-130), run by the event loop when a registered signal is
delivered. Consumes the outstanding `async_wait`. Branches on
`acceptor_.is_open()`: in the parent it reaps on SIGCHLD, closes the
acceptor on SIGTERM/SIGINT, and re-arms only in the non-terminating case;
with the acceptor closed it only logs. -/
def wait_for_signal_handler (st : ServerState) (s : Signal) :
    ServerState × List Action :=
  let st0 : ServerState := { st with signalArmed := false }
  if st0.acceptorOpen then
    let reaped :=
      if s = Signal.sigchld then
        ({ st0 with zombies := drain_zombies st0.zombies }, [Action.reapLoop])
      else (st0, ([] : List Action))
    if s = Signal.sigterm ∨ s = Signal.sigint then
      ({ reaped.1 with acceptorOpen := false },
        Action.syslogInfo msgCaughtParent ::
          reaped.2 ++ [Action.closeAcceptor, Action.syslogInfo msgClosedAcceptor])
    else
      ({ reaped.1 with signalArmed := true },
        Action.syslogInfo msgCaughtParent ::
          reaped.2 ++ [Action.syslogInfo msgRescheduled, Action.rearmSignalWait])
  else
    (st0, [Action.syslogInfo msgCaughtChild])

/-- The child branch of the fork inside the accept handler (server2.cpp
lines 146-174): `notify_fork(fork_child)`, `acceptor_.close()`,
`signals_.remove(SIGCHLD)`, a log line, then `io_service_.stop()` so the
child exits normally. The child never calls `do_accept` again. -/
def spawned_child (st : ServerState) : ServerState × List Action :=
  ({ st with acceptorOpen := false, sigchldRegistered := false, stopped := true },
    [Action.notifyForkChild, Action.closeAcceptor, Action.removeSigchld,
     Action.syslogInfo msgForkedChild, Action.stopEventLoop])

/-- The completion handler installed by `do_accept` (server2.cpp lines
132-191), run when the outstanding `async_accept` completes with error
code `acceptError`. Consumes the outstanding accept. If the acceptor has
been closed it returns at once without examining the error code. On
success it forks: the parent closes its copy of the connected socket and
re-arms the accept; the child context is returned separately. On error it
logs and re-arms. -/
def do_accept_handler (st : ServerState) (acceptError : Bool) :
    ServerState × List Action × Option (ServerState × List Action) :=
  let st0 : ServerState := { st with acceptArmed := false }
  if ¬st0.acceptorOpen then
    (st0, [], none)
  else if ¬acceptError then
    ({ st0 with liveChildren := st0.liveChildren + 1,
                accepted := st0.accepted + 1,
                acceptArmed := true },
      [Action.notifyForkPrepare, Action.forkChild, Action.notifyForkParent,
       Action.closeSocket, Action.rearmAccept],
      some (spawned_child st0))
  else
    ({ st0 with acceptArmed := true }, [Action.syslogErr msgAcceptError], none)

/-- Events the environment can deliver to the parent event loop: a
registered signal, completion of the outstanding accept (with or without
an error), or a worker terminating on its own (becoming a zombie until
reaped). -/
inductive Event
  | deliverSignal (s : Signal)
  | acceptCompleted (acceptError : Bool)
  | childTerminates
deriving DecidableEq, Repr

/-- One iteration of the event loop: a handler runs only if the matching
asynchronous operation is outstanding. Returns the new state, the actions
performed, and the forked child context when a worker was spawned. -/
def stepFull (st : ServerState) (e : Event) :
    ServerState × List Action × Option (ServerState × List Action) :=
  match e with
  | Event.deliverSignal s =>
      if st.signalArmed then
        ((wait_for_signal_handler st s).1, (wait_for_signal_handler st s).2, none)
      else (st, [], none)
  | Event.acceptCompleted err =>
      if st.acceptArmed then do_accept_handler st err else (st, [], none)
  | Event.childTerminates =>
      if 0 < st.liveChildren then
        ({ st with liveChildren := st.liveChildren - 1, zombies := st.zombies + 1 },
          [], none)
      else (st, [], none)

/-- State component of one event-loop iteration. -/
def step (st : ServerState) (e : Event) : ServerState :=
  (stepFull st e).1

/-- Actions performed during one event-loop iteration. -/
def stepActs (st : ServerState) (e : Event) : List Action :=
  (stepFull st e).2.1

/-- Forked child context produced by one event-loop iteration, if any. -/
def stepChild (st : ServerState) (e : Event) : Option (ServerState × List Action) :=
  (stepFull st e).2.2

/-- State of the forked child produced by one event-loop iteration (the
pre-event state when no child was forked). -/
def childSpawn (st : ServerState) (e : Event) : ServerState :=
  ((stepChild st e).getD (st, [])).1

/-- Actions performed by the forked child produced by one event-loop
iteration (empty when no child was forked). -/
def childActs (st : ServerState) (e : Event) : List Action :=
  ((stepChild st e).getD (st, [])).2

/-- The event loop folded over an environment-chosen event list. -/
def run (st : ServerState) : List Event → ServerState
  | [] => st
  | e :: es => run (step st e) es

/-! ### Startup: `main` of server2.cpp (lines 199-293)

`main` checks arity, then inside a `try` block daemonizes (two forks,
stream redirection, PID file), parses the port with `std::stoi`, and
constructs the `server` (which binds the listening socket). Any exception
thrown inside the `try` block — `std::invalid_argument` /
`std::out_of_range` from `std::stoi`, or `boost::system::system_error`
from a failed bind — is caught by the `catch` at lines 289-292, which
logs the error to syslog and prints it once to stderr; control then falls
off the end of `main`, so the process exits with status 0. The explicit
early-error paths (`return 1`) are modelled as well. -/

/-- Output channels of the modelled process. -/
inductive Channel
  | stdout
  | stderr
  | syslogSink
deriving DecidableEq, Repr

/-- Result of running `main` to completion in one process: the ordered
outputs it produced and the exit status of that process. -/
structure MainResult where
  outputs : List (Channel × String)
  exitCode : Nat
deriving DecidableEq, Repr

/-- Outcomes of the environment-dependent daemonization steps in `main`:
whether each fork, stream redirection step, PID-file step, and the
listening-socket bind succeeds. -/
structure DaemonEnv where
  firstForkOk : Bool
  secondForkOk : Bool
  devNullOk : Bool
  outputFileOk : Bool
  dupOk : Bool
  pidFileOk : Bool
  bindOk : Bool
deriving DecidableEq, Repr

/-- Environment in which every daemonization step and the bind succeed. -/
def allOk : DaemonEnv :=
  { firstForkOk := true, secondForkOk := true, devNullOk := true,
    outputFileOk := true, dupOk := true, pidFileOk := true, bindOk := true }

/-- Environment in which the bind fails (port in use, insufficient
privilege, invalid value) and everything before it succeeds. -/
def bindFails : DaemonEnv :=
  { allOk with bindOk := false }

/-- Whitespace skipped by `std::stoi` (the `isspace` set of the C
locale). -/
def cppIsSpace (c : Char) : Bool :=
  c = ' ' ∨ c = '\t' ∨ c = '\n' ∨ c = '\x0b' ∨ c = '\x0c' ∨ c = '\r'

def isDigitChar (c : Char) : Bool :=
  '0' ≤ c ∧ c ≤ '9'

def digitsToNat : List Char → Nat → Nat
  | [], acc => acc
  | c :: cs, acc => digitsToNat cs (acc * 10 + (c.toNat - 48))

/-- Model of `std::stoi` in base 10: skip leading whitespace, allow one
sign, then require at least one decimal digit; `none` models the thrown
`std::invalid_argument` (no conversion) or `std::out_of_range` (value
outside `int`, a 32-bit signed type). Trailing non-digit characters are
ignored, as `std::stoi` ignores them when no out-parameter is given. -/
def stoi (s : String) : Option Int :=
  let cs := s.data.dropWhile cppIsSpace
  let signed : Bool × List Char :=
    match cs with
    | '-' :: rest => (true, rest)
    | '+' :: rest => (false, rest)
    | _ => (false, cs)
  let ds := signed.2.takeWhile isDigitChar
  if ds.isEmpty then none
  else
    let n : Nat := digitsToNat ds 0
    let v : Int := if signed.1 then -(n : Int) else (n : Int)
    if v < -(2 ^ 31) ∨ (2 ^ 31 - 1 : Int) < v then none else some v

def usagePrefix : String := "Usage: "

def usageSuffix : String := " <port>"

/-- The usage line printed by `fmt::print("Usage: {} <port>\n", _argv[0])`
(server2.cpp line 202). `fmt::print` with no file argument writes to
standard output. -/
def usageLine (prog : String) : String :=
  usagePrefix ++ prog ++ usageSuffix

def msgFirstForkFailed : String := "First fork failed"

def msgSecondForkFailed : String := "Second fork failed"

def msgDevNullFailed : String := "Unable to open /dev/null"

def msgOutputFailed : String := "Unable to open output file"

def msgDupFailed : String := "Unable to dup output descriptor"

def msgPidFileFailed : String := "Could not set up PID file"

def msgException : String := "Exception"

def msgDaemonStarted : String := "Daemon started"

def msgDaemonStopped : String := "Daemon stopped"

def emptyString : String := ""

/-- The `catch (const std::exception&)` block at server2.cpp lines
289-292: one syslog line and one stderr line, after which `main` falls
off its end and the process exits with status 0. -/
def catchBlockResult : MainResult :=
  { outputs := [(Channel.syslogSink, msgException), (Channel.stderr, msgException)],
    exitCode := 0 }

/-- Model of `main` of server2.cpp (lines 199-293), followed from the
perspective of the process that runs the furthest (after a successful
fork the parent exits 0 and the model follows the child). `args` is
`argv` as a list, so `args.length` is `argc`. -/
def server2_main (args : List String) (env : DaemonEnv) : MainResult :=
  if args.length ≠ 2 then
    { outputs := [(Channel.stdout, usageLine (args.headD emptyString))], exitCode := 1 }
  else if ¬env.firstForkOk then
    { outputs := [(Channel.syslogSink, msgFirstForkFailed)], exitCode := 1 }
  else if ¬env.secondForkOk then
    { outputs := [(Channel.syslogSink, msgSecondForkFailed)], exitCode := 1 }
  else if ¬env.devNullOk then
    { outputs := [(Channel.syslogSink, msgDevNullFailed)], exitCode := 1 }
  else if ¬env.outputFileOk then
    { outputs := [(Channel.syslogSink, msgOutputFailed)], exitCode := 1 }
  else if ¬env.dupOk then
    { outputs := [(Channel.syslogSink, msgDupFailed)], exitCode := 1 }
  else if ¬env.pidFileOk then
    { outputs := [(Channel.syslogSink, msgPidFileFailed)], exitCode := 1 }
  else
    match stoi (args.getD 1 emptyString) with
    | none => catchBlockResult
    | some _ =>
        if ¬env.bindOk then catchBlockResult
        else
          { outputs := [(Channel.syslogSink, msgDaemonStarted),
                        (Channel.syslogSink, msgDaemonStopped)],
            exitCode := 0 }

/-! ### Wire codec

The framing — a 4-byte little-endian length prefix followed by the
serialized body — is embedded from src/client.cpp lines 123-127
(`little_int32_buf_t v(builder.GetSize()); s.write(&v, 4);
s.write(GetBufferPointer(), GetSize())`). The message schema is embedded
from message.fbs. The body serialization itself is performed by the
FlatBuffers library through generated code (`message_generated.h`), which
is not part of the repository sources, so it is modelled from the spec
(see `encode_body`). Bytes are `Nat` values below 256. -/

/-- The `api_no : uint16` enum of message.fbs, numbered consecutively
from 0. -/
inductive api_no
  | data_object_open
  | data_object_close
  | data_object_read
  | data_object_write
  | data_object_seek
  | data_object_truncate
  | data_object_unlink
deriving DecidableEq, Repr

/-- Wire code of an `api_no` value. -/
def api_no.code : api_no → Nat
  | api_no.data_object_open => 0
  | api_no.data_object_close => 1
  | api_no.data_object_read => 2
  | api_no.data_object_write => 3
  | api_no.data_object_seek => 4
  | api_no.data_object_truncate => 5
  | api_no.data_object_unlink => 6

/-- Decode a wire code back to an `api_no`; codes 7 and above are a
schema error. -/
def api_no.ofCode : Nat → Option api_no
  | 0 => some api_no.data_object_open
  | 1 => some api_no.data_object_close
  | 2 => some api_no.data_object_read
  | 3 => some api_no.data_object_write
  | 4 => some api_no.data_object_seek
  | 5 => some api_no.data_object_truncate
  | 6 => some api_no.data_object_unlink
  | _ + 7 => none

/-- The `user_info` table of message.fbs: a single string field. -/
structure user_info where
  name : List Nat
deriving DecidableEq, Repr

/-- The `message` table of message.fbs. `minimum_protocol_version` is a
16-bit signed integer, `payload` a byte string opaque to the core. -/
structure message where
  minimum_protocol_version : Int
  api_number : api_no
  user : user_info
  proxy_user : user_info
  payload : List Nat
deriving DecidableEq, Repr

/-- Little-endian 16-bit encoding. -/
def le16 (n : Nat) : List Nat :=
  [n % 256, n / 256 % 256]

/-- Little-endian 32-bit encoding, as written by
`boost::endian::little_int32_buf_t` in client.cpp. -/
def le32 (n : Nat) : List Nat :=
  [n % 256, n / 256 % 256, n / 256 ^ 2 % 256, n / 256 ^ 3 % 256]

/-- Read exactly two bytes as a little-endian 16-bit value. -/
def readLe16 : List Nat → Option (Nat × List Nat)
  | b0 :: b1 :: rest => some (b0 + 256 * b1, rest)
  | _ => none

/-- Read exactly four bytes as a little-endian 32-bit value. -/
def readLe32 : List Nat → Option (Nat × List Nat)
  | b0 :: b1 :: b2 :: b3 :: rest =>
      some (b0 + 256 * b1 + 256 ^ 2 * b2 + 256 ^ 3 * b3, rest)
  | _ => none

/-- Two's-complement bit pattern of a 16-bit signed integer. -/
def int16Bits (v : Int) : Nat :=
  (v % 65536).toNat

/-- Signed interpretation of a 16-bit bit pattern. -/
def int16OfBits (n : Nat) : Int :=
  if n < 32768 then (n : Int) else (n : Int) - 65536

/-- A string stored as an independent object: its 32-bit length followed
by its bytes. -/
def strObject (bs : List Nat) : List Nat :=
  le32 bs.length ++ bs

/-- Modelled from the spec: the FlatBuffers serialization of the message
body is produced by generated code (`message_generated.h`) and the
FlatBuffers library, neither of which is in the sources; only the schema
(message.fbs) and the builder call sequence (client.cpp lines 97-121)
are. Faithful to §3/§4.4 of the spec: the body carries
`minimum_protocol_version` (int16), `api_number` (uint16 enum code) and
references the three strings, which are materialized as independent
objects after a fixed-size 16-byte table and referenced by offsets from
the start of the body, not inlined. -/
def encode_body (m : message) : List Nat :=
  let offUser := 16
  let offProxy := offUser + 4 + m.user.name.length
  let offPayload := offProxy + 4 + m.proxy_user.name.length
  le16 (int16Bits m.minimum_protocol_version) ++
    le16 m.api_number.code ++
    le32 offUser ++ le32 offProxy ++ le32 offPayload ++
    strObject m.user.name ++ strObject m.proxy_user.name ++
    strObject m.payload

/-- Read the string object stored at offset `off` of `body`: its 32-bit
length, then exactly that many bytes; `none` when truncated. -/
def readStrAt (body : List Nat) (off : Nat) : Option (List Nat) :=
  match readLe32 (body.drop off) with
  | none => none
  | some (len, rest) =>
      if len ≤ rest.length then some (rest.take len) else none

/-- Modelled from the spec: the decoder for `encode_body` (§4.4
`decode`), failing on a truncated table, a bad enum value, or a
truncated/out-of-bounds string object. -/
def decode_body (body : List Nat) : Option message := do
  let (vbits, r1) ← readLe16 body
  let (acode, r2) ← readLe16 r1
  let (offUser, r3) ← readLe32 r2
  let (offProxy, r4) ← readLe32 r3
  let (offPayload, _) ← readLe32 r4
  let api ← api_no.ofCode acode
  let uname ← readStrAt body offUser
  let pname ← readStrAt body offProxy
  let pay ← readStrAt body offPayload
  some { minimum_protocol_version := int16OfBits vbits,
         api_number := api,
         user := { name := uname },
         proxy_user := { name := pname },
         payload := pay }

/-- Maximum body length accepted by the decoder (16 MiB, spec §4.4). -/
def maxBodyLength : Nat := 16 * 1024 * 1024

/-- Framing from client.cpp lines 123-127: the serialized body prefixed
with its length as a 4-byte little-endian unsigned integer. -/
def encode_framed (m : message) : List Nat :=
  le32 (encode_body m).length ++ encode_body m

/-- Framed decode (spec §4.4): read exactly 4 bytes for the length, fail
on a length above the configured maximum or on fewer than `len` body
bytes, then decode exactly `len` body bytes. -/
def decode_framed (w : List Nat) : Option message :=
  match readLe32 w with
  | none => none
  | some (len, rest) =>
      if maxBodyLength < len then none
      else if len ≤ rest.length then decode_body (rest.take len)
      else none

/-- Bytes of an ASCII string literal. -/
def strBytes (s : String) : List Nat :=
  s.data.map Char.toNat

def koryName : String := "kory"

def rodsName : String := "rods"

def scenarioPayload : String := "/tmp/data.obj"

/-- The concrete message of the spec scenario (§8) and of client.cpp:
version 430, operation `data_object_open`, user kory, proxy user rods,
payload `/tmp/data.obj`. -/
def scenario_message : message :=
  { minimum_protocol_version := 430
    api_number := api_no.data_object_open
    user := { name := strBytes koryName }
    proxy_user := { name := strBytes rodsName }
    payload := strBytes scenarioPayload }

/-! ### Concrete inputs used by witnesses -/

def progName : String := "simple_cpp_server"

/-- A port argument `std::stoi` cannot parse (no leading digits). -/
def badPortArg : String := "port"

def portArg : String := "8080"

def extraArg : String := "extra"

/-- A parent-role state with several terminated-but-unreaped workers. -/
def zombieState : ServerState :=
  { server_init with zombies := 3, liveChildren := 2 }

/-- The parent state right after a Terminate signal was handled: acceptor
closed, signal handler not re-armed, the accept still outstanding. -/
def closedState : ServerState :=
  { server_init with acceptorOpen := false, signalArmed := false }

/-- A worker-like state: listening socket closed, differing from
`closedState` in every unrelated field. -/
def workerState : ServerState :=
  { acceptorOpen := false
    signalArmed := true
    acceptArmed := false
    sigchldRegistered := false
    stopped := false
    zombies := 5
    liveChildren := 0
    accepted := 7 }

/-! ### Helper lemmas (shared) -/

/-- The non-blocking reap loop terminates only when no terminated child
remains: whatever the number of zombies, all are collected. -/
theorem drain_zombies_eq_zero (n : Nat) : drain_zombies n = 0 := by
  induction n with
  | zero => rfl
  | succ n ih => simpa [drain_zombies] using ih

/-- Once the acceptor is closed, no event-loop iteration reopens it. -/
theorem step_preserves_closed (st : ServerState) (e : Event)
    (h : st.acceptorOpen = false) : (step st e).acceptorOpen = false := by
  cases e with
  | deliverSignal s =>
      simp only [step, stepFull]
      split
      · simp [wait_for_signal_handler, h]
      · exact h
  | acceptCompleted err =>
      simp only [step, stepFull]
      split
      · simp [do_accept_handler, h]
      · exact h
  | childTerminates =>
      simp only [step, stepFull]
      split <;> simp [h]

/-- With the acceptor closed, no event-loop iteration serves a new
connection. -/
theorem step_closed_accepted (st : ServerState) (e : Event)
    (h : st.acceptorOpen = false) : (step st e).accepted = st.accepted := by
  cases e with
  | deliverSignal s =>
      simp only [step, stepFull]
      split
      · simp [wait_for_signal_handler, h]
      · rfl
  | acceptCompleted err =>
      simp only [step, stepFull]
      split
      · simp [do_accept_handler, h]
      · rfl
  | childTerminates =>
      simp only [step, stepFull]
      split <;> rfl

/-- With the acceptor closed, any sequence of further events leaves the
acceptor closed and the count of served connections unchanged. -/
theorem run_closed_no_new_accepts (st : ServerState) (es : List Event)
    (h : st.acceptorOpen = false) :
    (run st es).acceptorOpen = false ∧ (run st es).accepted = st.accepted := by
  induction es generalizing st with
  | nil => exact ⟨h, rfl⟩
  | cons e es ih =>
      have h1 := step_preserves_closed st e h
      have h2 := step_closed_accepted st e h
      have h3 := ih (step st e) h1
      exact ⟨h3.1, by rw [show run st (e :: es) = run (step st e) es from rfl, h3.2, h2]⟩

/-- The number of live workers never decreases except when a worker
terminates on its own: no handler kills a child. -/
theorem live_children_only_exit (st : ServerState) (e : Event)
    (h : e ≠ Event.childTerminates) :
    st.liveChildren ≤ (step st e).liveChildren := by
  cases e with
  | deliverSignal s =>
      simp only [step, stepFull]
      split
      · simp only [wait_for_signal_handler]
        split
        · split <;> (split <;> simp)
        · simp
      · exact Nat.le_refl _
  | acceptCompleted err =>
      simp only [step, stepFull]
      split
      · simp only [do_accept_handler]
        split
        · simp
        · split <;> simp
      · exact Nat.le_refl _
  | childTerminates => exact absurd rfl h

/-! ### Claim theorems -/

/-- C2: a ChildExited (SIGCHLD) delivery handled while the acceptor is
still open (parent role) runs the non-blocking reap loop, which drains
every currently-terminated child no matter how many workers exited before
the one delivery (the zombie count is arbitrary and ends at zero), and
then re-arms the signal wait for further signals. -/
theorem sigchld_drains_all_and_rearms (st : ServerState)
    (hrole : st.acceptorOpen = true) (harm : st.signalArmed = true) :
    (step st (Event.deliverSignal Signal.sigchld)).zombies = 0 ∧
    (step st (Event.deliverSignal Signal.sigchld)).signalArmed = true ∧
    Action.reapLoop ∈ stepActs st (Event.deliverSignal Signal.sigchld) ∧
    Action.rearmSignalWait ∈ stepActs st (Event.deliverSignal Signal.sigchld) := by
  simp [step, stepFull, stepActs, wait_for_signal_handler, hrole, harm,
        drain_zombies_eq_zero]

/-- Witness for C2 at a parent state holding three zombies and two live
workers. -/
theorem sigchld_drains_all_and_rearms_witness :
    (zombieState.acceptorOpen = true ∧ zombieState.signalArmed = true) ∧
    ((step zombieState (Event.deliverSignal Signal.sigchld)).zombies = 0 ∧
     (step zombieState (Event.deliverSignal Signal.sigchld)).signalArmed = true ∧
     Action.reapLoop ∈ stepActs zombieState (Event.deliverSignal Signal.sigchld) ∧
     Action.rearmSignalWait ∈ stepActs zombieState (Event.deliverSignal Signal.sigchld)) :=
  ⟨by decide, sigchld_drains_all_and_rearms zombieState rfl rfl⟩

/-- C3: a Terminate or Interrupt signal handled in the parent role closes
the listening endpoint and does not re-arm the signal handler; after
that, no run of the event loop ever serves another connection, and live
workers leave only by terminating on their own — no handler removes
one. -/
theorem terminate_in_parent_stops_accepting (st : ServerState) (s : Signal)
    (hrole : st.acceptorOpen = true) (harm : st.signalArmed = true)
    (hs : s = Signal.sigterm ∨ s = Signal.sigint) :
    (step st (Event.deliverSignal s)).acceptorOpen = false ∧
    (step st (Event.deliverSignal s)).signalArmed = false ∧
    Action.rearmSignalWait ∉ stepActs st (Event.deliverSignal s) ∧
    (∀ es, (run (step st (Event.deliverSignal s)) es).accepted =
       (step st (Event.deliverSignal s)).accepted) ∧
    (∀ st2 e, e ≠ Event.childTerminates →
       st2.liveChildren ≤ (step st2 e).liveChildren) := by
  have hclosed : (step st (Event.deliverSignal s)).acceptorOpen = false := by
    rcases hs with h | h <;> subst h <;>
      simp [step, stepFull, wait_for_signal_handler, hrole, harm]
  refine ⟨hclosed, ?_, ?_, ?_, ?_⟩
  · rcases hs with h | h <;> subst h <;>
      simp [step, stepFull, wait_for_signal_handler, hrole, harm]
  · rcases hs with h | h <;> subst h <;>
      simp [stepActs, stepFull, wait_for_signal_handler, hrole, harm]
  · intro es
    exact (run_closed_no_new_accepts _ es hclosed).2
  · intro st2 e he
    exact live_children_only_exit st2 e he

/-- Witness for C3: from the freshly constructed server state, SIGTERM
closes the acceptor and disarms the handler; a later accept completion
and SIGCHLD delivery serve nothing, and the accept-success step never
lowers the live-worker count. -/
theorem terminate_in_parent_stops_accepting_witness :
    (server_init.acceptorOpen = true ∧ server_init.signalArmed = true ∧
      (Signal.sigterm = Signal.sigterm ∨ Signal.sigterm = Signal.sigint)) ∧
    ((step server_init (Event.deliverSignal Signal.sigterm)).acceptorOpen = false ∧
     (step server_init (Event.deliverSignal Signal.sigterm)).signalArmed = false ∧
     Action.rearmSignalWait ∉ stepActs server_init (Event.deliverSignal Signal.sigterm) ∧
     (run (step server_init (Event.deliverSignal Signal.sigterm))
        [Event.acceptCompleted false, Event.deliverSignal Signal.sigchld]).accepted =
       (step server_init (Event.deliverSignal Signal.sigterm)).accepted ∧
     server_init.liveChildren ≤ (step server_init (Event.acceptCompleted false)).liveChildren) :=
  ⟨by decide,
   let h := terminate_in_parent_stops_accepting server_init Signal.sigterm rfl rfl (Or.inl rfl)
   ⟨h.1, h.2.1, h.2.2.1,
    h.2.2.2.1 [Event.acceptCompleted false, Event.deliverSignal Signal.sigchld],
    h.2.2.2.2 server_init (Event.acceptCompleted false) (by decide)⟩⟩

/-- C4: on a successful accept in the parent role, the spawned worker
closes its copy of the listening socket immediately at spawn time (right
after the post-fork notification), holds no outstanding accept and never
re-arms one, and ends by stopping its event loop rather than returning to
the accept loop; the spawner keeps the listening socket open and
immediately re-arms its accept operation. -/
theorem worker_spawn_isolation (st : ServerState)
    (hrole : st.acceptorOpen = true) (harm : st.acceptArmed = true) :
    (stepChild st (Event.acceptCompleted false)).isSome = true ∧
    (childSpawn st (Event.acceptCompleted false)).acceptorOpen = false ∧
    (childSpawn st (Event.acceptCompleted false)).acceptArmed = false ∧
    (childSpawn st (Event.acceptCompleted false)).stopped = true ∧
    (childActs st (Event.acceptCompleted false)).take 2 =
      [Action.notifyForkChild, Action.closeAcceptor] ∧
    Action.rearmAccept ∉ childActs st (Event.acceptCompleted false) ∧
    (childActs st (Event.acceptCompleted false)).getLast? = some Action.stopEventLoop ∧
    (step st (Event.acceptCompleted false)).acceptorOpen = true ∧
    (step st (Event.acceptCompleted false)).acceptArmed = true ∧
    Action.rearmAccept ∈ stepActs st (Event.acceptCompleted false) := by
  simp [step, stepFull, stepActs, stepChild, childSpawn, childActs,
        do_accept_handler, spawned_child, hrole, harm]

/-- Witness for C4 at the freshly constructed server state. -/
theorem worker_spawn_isolation_witness :
    (server_init.acceptorOpen = true ∧ server_init.acceptArmed = true) ∧
    ((stepChild server_init (Event.acceptCompleted false)).isSome = true ∧
     (childSpawn server_init (Event.acceptCompleted false)).acceptorOpen = false ∧
     (childSpawn server_init (Event.acceptCompleted false)).acceptArmed = false ∧
     (childSpawn server_init (Event.acceptCompleted false)).stopped = true ∧
     (childActs server_init (Event.acceptCompleted false)).take 2 =
       [Action.notifyForkChild, Action.closeAcceptor] ∧
     Action.rearmAccept ∉ childActs server_init (Event.acceptCompleted false) ∧
     (childActs server_init (Event.acceptCompleted false)).getLast? =
       some Action.stopEventLoop ∧
     (step server_init (Event.acceptCompleted false)).acceptorOpen = true ∧
     (step server_init (Event.acceptCompleted false)).acceptArmed = true ∧
     Action.rearmAccept ∈ stepActs server_init (Event.acceptCompleted false)) :=
  ⟨by decide, worker_spawn_isolation server_init rfl rfl⟩

/-- C5: in the spawned worker, the SIGCHLD registration is removed at
spawn time: the removal action is present, the worker state no longer has
SIGCHLD registered, and the only actions preceding the removal are the
post-fork notification and the acceptor close, neither of which is a
blocking wait. -/
theorem worker_removes_sigchld_before_blocking (st : ServerState)
    (hrole : st.acceptorOpen = true) (harm : st.acceptArmed = true) :
    (childSpawn st (Event.acceptCompleted false)).sigchldRegistered = false ∧
    Action.removeSigchld ∈ childActs st (Event.acceptCompleted false) ∧
    (childActs st (Event.acceptCompleted false)).takeWhile
        (fun a => !(a == Action.removeSigchld)) =
      [Action.notifyForkChild, Action.closeAcceptor] ∧
    ∀ a ∈ (childActs st (Event.acceptCompleted false)).takeWhile
        (fun a => !(a == Action.removeSigchld)), isBlockingWait a = false := by
  simp [stepFull, stepChild, childSpawn, childActs, do_accept_handler,
        spawned_child, hrole, harm]
  decide

/-- Witness for C5 at the freshly constructed server state. -/
theorem worker_removes_sigchld_before_blocking_witness :
    (server_init.acceptorOpen = true ∧ server_init.acceptArmed = true) ∧
    ((childSpawn server_init (Event.acceptCompleted false)).sigchldRegistered = false ∧
     Action.removeSigchld ∈ childActs server_init (Event.acceptCompleted false) ∧
     (childActs server_init (Event.acceptCompleted false)).takeWhile
         (fun a => !(a == Action.removeSigchld)) =
       [Action.notifyForkChild, Action.closeAcceptor] ∧
     ∀ a ∈ (childActs server_init (Event.acceptCompleted false)).takeWhile
         (fun a => !(a == Action.removeSigchld)), isBlockingWait a = false) :=
  ⟨by decide, worker_removes_sigchld_before_blocking server_init rfl rfl⟩

/-- C6: the signal handler decides the process role solely from whether
the listening socket is still open — two states agreeing on that bit get
identical handler actions for every signal; with the socket closed (a
worker) the handler only logs, leaving the zombie count untouched, and a
reap happens only with the socket open (parent role) on SIGCHLD. -/
theorem role_decided_by_acceptor_only (st st2 : ServerState) (s : Signal)
    (h : st2.acceptorOpen = st.acceptorOpen) :
    (wait_for_signal_handler st s).2 = (wait_for_signal_handler st2 s).2 ∧
    (st.acceptorOpen = false →
      (wait_for_signal_handler st s).2 = [Action.syslogInfo msgCaughtChild] ∧
      (wait_for_signal_handler st s).1.zombies = st.zombies) ∧
    (Action.reapLoop ∈ (wait_for_signal_handler st s).2 →
      st.acceptorOpen = true ∧ s = Signal.sigchld) := by
  refine ⟨?_, ?_, ?_⟩ <;>
    cases hb : st.acceptorOpen <;> cases s <;>
      simp [wait_for_signal_handler, hb, h]

/-- Witness for C6 at two distinct worker states (socket closed) and a
SIGCHLD delivery. -/
theorem role_decided_by_acceptor_only_witness :
    (workerState.acceptorOpen = closedState.acceptorOpen) ∧
    ((wait_for_signal_handler closedState Signal.sigchld).2 =
       (wait_for_signal_handler workerState Signal.sigchld).2 ∧
     (closedState.acceptorOpen = false →
       (wait_for_signal_handler closedState Signal.sigchld).2 =
         [Action.syslogInfo msgCaughtChild] ∧
       (wait_for_signal_handler closedState Signal.sigchld).1.zombies =
         closedState.zombies) ∧
     (Action.reapLoop ∈ (wait_for_signal_handler closedState Signal.sigchld).2 →
       closedState.acceptorOpen = true ∧ Signal.sigchld = Signal.sigchld)) :=
  ⟨rfl, role_decided_by_acceptor_only closedState workerState Signal.sigchld rfl⟩

/-- C7: a transient accept error while the acceptor is open produces
exactly one error log line, spawns no worker, and re-arms the accept with
the acceptor still open; the subsequent successful accept is still served
— a worker is spawned and the served-connection count increases. -/
theorem accept_error_logs_and_rearms (st : ServerState)
    (hrole : st.acceptorOpen = true) (harm : st.acceptArmed = true) :
    stepActs st (Event.acceptCompleted true) = [Action.syslogErr msgAcceptError] ∧
    stepChild st (Event.acceptCompleted true) = none ∧
    (step st (Event.acceptCompleted true)).acceptorOpen = true ∧
    (step st (Event.acceptCompleted true)).acceptArmed = true ∧
    (step st (Event.acceptCompleted true)).accepted = st.accepted ∧
    (step (step st (Event.acceptCompleted true)) (Event.acceptCompleted false)).accepted =
      st.accepted + 1 ∧
    (stepChild (step st (Event.acceptCompleted true)) (Event.acceptCompleted false)).isSome =
      true := by
  simp [step, stepFull, stepActs, stepChild, do_accept_handler, hrole, harm]

/-- Witness for C7 at the freshly constructed server state. -/
theorem accept_error_logs_and_rearms_witness :
    (server_init.acceptorOpen = true ∧ server_init.acceptArmed = true) ∧
    (stepActs server_init (Event.acceptCompleted true) =
       [Action.syslogErr msgAcceptError] ∧
     stepChild server_init (Event.acceptCompleted true) = none ∧
     (step server_init (Event.acceptCompleted true)).acceptorOpen = true ∧
     (step server_init (Event.acceptCompleted true)).acceptArmed = true ∧
     (step server_init (Event.acceptCompleted true)).accepted = server_init.accepted ∧
     (step (step server_init (Event.acceptCompleted true))
        (Event.acceptCompleted false)).accepted = server_init.accepted + 1 ∧
     (stepChild (step server_init (Event.acceptCompleted true))
        (Event.acceptCompleted false)).isSome = true) :=
  ⟨by decide, accept_error_logs_and_rearms server_init rfl rfl⟩

/-- C10: when the accept completion handler runs after the acceptor was
closed, it returns at once — whatever the error code, it performs no
action, spawns no worker, and leaves the accept disarmed, so a connection
whose accept completed concurrently with shutdown is dropped silently. -/
theorem accept_completion_after_close_drops (st : ServerState) (ec : Bool)
    (hclosed : st.acceptorOpen = false) (harm : st.acceptArmed = true) :
    stepFull st (Event.acceptCompleted ec) =
      ({ st with acceptArmed := false }, [], none) := by
  simp [stepFull, do_accept_handler, hclosed, harm]

/-- Witness for C10: a successfully accepted connection arriving after
shutdown closed the acceptor is dropped with no action at all. -/
theorem accept_completion_after_close_drops_witness :
    (closedState.acceptorOpen = false ∧ closedState.acceptArmed = true) ∧
    stepFull closedState (Event.acceptCompleted false) =
      ({ closedState with acceptArmed := false }, [], none) :=
  ⟨by decide, accept_completion_after_close_drops closedState false rfl rfl⟩

/-- C8: the scenario message (version 430, operation data_object_open,
user kory, proxy user rods, payload /tmp/data.obj) encodes to wire bytes
that begin with a 4-byte little-endian length L followed by exactly L
body bytes, and decoding those L+4 bytes reproduces the five field
values exactly. -/
theorem scenario_message_roundtrip :
    (encode_framed scenario_message).take 4 =
      le32 (encode_body scenario_message).length ∧
    (encode_framed scenario_message).drop 4 = encode_body scenario_message ∧
    (encode_framed scenario_message).length =
      (encode_body scenario_message).length + 4 ∧
    decode_framed (encode_framed scenario_message) = some scenario_message := by
  decide

/-- C1 (code-bug evidence): with an unparsable port argument, and equally
with a failing bind, the daemon reports the exception exactly once to
stderr (and once to syslog), makes no retry, and exits — but with status
0, because the catch block at server2.cpp lines 289-292 falls off the end
of main; the claimed nonzero exit status does not occur. -/
theorem startup_error_exits_with_status_zero :
    server2_main [progName, badPortArg] allOk = catchBlockResult ∧
    server2_main [progName, portArg] bindFails = catchBlockResult ∧
    stoi badPortArg = none ∧
    catchBlockResult.exitCode = 0 ∧
    (catchBlockResult.outputs.filter (fun p => p.1 == Channel.stderr)).length = 1 := by
  decide

/-- C9 (counterexample): invoked with wrong arity, the program writes the
usage line to standard output and nothing at all to standard error, so
the claim that the usage line goes to standard error is false (the
exit-status-1 part holds). -/
theorem usage_line_not_on_stderr :
    (server2_main [progName] allOk).exitCode = 1 ∧
    (server2_main [progName] allOk).outputs.filter (fun p => p.1 == Channel.stderr) =
      [] ∧
    (server2_main [progName] allOk).outputs =
      [(Channel.stdout, usageLine progName)] := by
  decide

/-- C9 (amended): invoked with any number of command-line arguments other
than exactly one positional port argument, the program prints a usage
line to standard output and exits with status 1. -/
theorem wrong_arity_usage_stdout (args : List String) (env : DaemonEnv)
    (h : args.length ≠ 2) :
    (server2_main args env).exitCode = 1 ∧
    (server2_main args env).outputs =
      [(Channel.stdout, usageLine (args.headD emptyString))] := by
  simp [server2_main, h]

/-- Witness for the amended C9, invoked with two positional arguments. -/
theorem wrong_arity_usage_stdout_witness :
    ([progName, portArg, extraArg] : List String).length ≠ 2 ∧
    ((server2_main [progName, portArg, extraArg] allOk).exitCode = 1 ∧
     (server2_main [progName, portArg, extraArg] allOk).outputs =
       [(Channel.stdout, usageLine ([progName, portArg, extraArg].headD emptyString))]) :=
  ⟨by decide, wrong_arity_usage_stdout [progName, portArg, extraArg] allOk (by decide)⟩

end SimpleCppServer
